import Mathlib

/-!
Verification of the risk-adaptive decision pipeline of the TradingPlot
repository (a KuCoin perpetual-futures trading bot).

The Python source is shallowly embedded: Python floats are modelled as exact
rationals, Python ints as integers, fallible paths as Option results.  Every
definition mirrors a named function of the source tree; the file/line of the
source is given in the doc comment of each definition.
-/

namespace TradingPlot

/-- Floor of a rational as an integer. -/
def ratFloor (x : ℚ) : ℤ := ⌊x⌋

/-- Round a rational to the nearest integer with halves going to the even
neighbour.  This models the CPython builtin round(x) on the exact decimal
values that arise in this development (floats are modelled as exact
rationals). -/
def pyRound0 (x : ℚ) : ℤ :=
  let f : ℤ := ⌊x⌋
  let frac : ℚ := x - (f : ℚ)
  if frac < 1/2 then f
  else if 1/2 < frac then f + 1
  else if f % 2 = 0 then f else f + 1

/-- Round a rational to one decimal place, halves to even; models the CPython
call round(x, 1) on the exact decimal values arising here. -/
def pyRound1 (x : ℚ) : ℚ := ((pyRound0 (x * 10) : ℤ) : ℚ) / 10

/-! Model of src/src/kucoin_bot/risk_management/adaptive_settings.py -/

/-- MarketConditions dataclass, adaptive_settings.py lines 9-15.  The field
volumeRel is named volume_ratio in the source. -/
structure MarketConditions where
  volatility : ℚ
  trend_strength : ℚ
  volumeRel : ℚ
deriving DecidableEq

/-- StrategyPerformance dataclass, adaptive_settings.py lines 18-26.  The
field sharpe is named sharpe_ratio in the source. -/
structure StrategyPerformance where
  win_rate : ℚ
  avg_profit : ℚ
  avg_loss : ℚ
  sharpe : ℚ
  total_trades : ℤ
deriving DecidableEq

/-- AdaptiveRiskParameters dataclass, adaptive_settings.py lines 29-36. -/
structure AdaptiveRiskParameters where
  max_leverage : ℤ
  max_position_size_percent : ℚ
  stop_loss_percent : ℚ
  take_profit_percent : ℚ
deriving DecidableEq

namespace AdaptiveRiskSettings

/-- Bound constant, adaptive_settings.py line 45. -/
def MIN_LEVERAGE : ℤ := 1

/-- Bound constant, adaptive_settings.py line 46. -/
def MAX_LEVERAGE_CAP : ℤ := 20

/-- Bound constant, adaptive_settings.py line 47. -/
def MIN_POSITION_SIZE : ℚ := 1.0

/-- Bound constant, adaptive_settings.py line 48. -/
def MAX_POSITION_SIZE : ℚ := 10.0

/-- Bound constant, adaptive_settings.py line 49. -/
def MIN_STOP_LOSS : ℚ := 0.5

/-- Bound constant, adaptive_settings.py line 50. -/
def MAX_STOP_LOSS : ℚ := 5.0

/-- Bound constant, adaptive_settings.py line 51. -/
def MIN_TAKE_PROFIT : ℚ := 1.0

/-- Bound constant, adaptive_settings.py line 52. -/
def MAX_TAKE_PROFIT : ℚ := 10.0

/-- Base constant, adaptive_settings.py line 55. -/
def BASE_LEVERAGE : ℚ := 5

/-- Base constant, adaptive_settings.py line 56. -/
def BASE_POSITION_SIZE : ℚ := 3.0

/-- Base constant, adaptive_settings.py line 57. -/
def BASE_STOP_LOSS : ℚ := 2.0

/-- Base constant, adaptive_settings.py line 58. -/
def BASE_TAKE_PROFIT : ℚ := 4.0

/-- AdaptiveRiskSettings.calculate_optimal_leverage, adaptive_settings.py
lines 71-116. -/
def calculate_optimal_leverage (mc : MarketConditions)
    (perf : StrategyPerformance) : ℤ :=
  let volatility_factor : ℚ :=
    if mc.volatility > 0.10 then max 0.3 (1.0 - mc.volatility * 3)
    else if mc.volatility < 0.03 then 1.2
    else 1.0
  let performance_factor : ℚ :=
    if perf.total_trades ≥ 10 then
      if perf.win_rate ≥ 0.6 then 1.0 + (perf.win_rate - 0.5) * 0.5
      else if perf.win_rate < 0.4 then max 0.5 (perf.win_rate * 1.5)
      else 1.0
    else 0.8
  let trend_factor : ℚ := 1.0 + |mc.trend_strength| * 0.2
  let optimal := BASE_LEVERAGE * volatility_factor * performance_factor * trend_factor
  max MIN_LEVERAGE (min (pyRound0 optimal) MAX_LEVERAGE_CAP)

/-- AdaptiveRiskSettings.calculate_optimal_position_size, adaptive_settings.py
lines 118-159. -/
def calculate_optimal_position_size (mc : MarketConditions)
    (perf : StrategyPerformance) : ℚ :=
  let volatility_factor : ℚ :=
    if mc.volatility > 0.08 then max 0.4 (1.0 - mc.volatility * 4)
    else 1.0 + (0.08 - mc.volatility) * 2
  let sharpe_factor : ℚ :=
    if perf.total_trades ≥ 10 then
      if perf.sharpe > 1.0 then min 1.5 (1.0 + (perf.sharpe - 1.0) * 0.25)
      else if perf.sharpe < 0 then max 0.5 (0.8 + perf.sharpe * 0.1)
      else 1.0
    else 0.8
  let optimal := BASE_POSITION_SIZE * volatility_factor * sharpe_factor
  max MIN_POSITION_SIZE (min (pyRound1 optimal) MAX_POSITION_SIZE)

/-- AdaptiveRiskSettings.calculate_optimal_stop_loss, adaptive_settings.py
lines 161-197. -/
def calculate_optimal_stop_loss (mc : MarketConditions)
    (perf : StrategyPerformance) : ℚ :=
  let volatility_factor : ℚ :=
    max 0.5 (min (1.0 + (mc.volatility - 0.05) * 10) 2.0)
  let win_rate_factor : ℚ :=
    if perf.total_trades ≥ 10 then
      if perf.win_rate ≥ 0.6 then 0.9
      else if perf.win_rate < 0.4 then 1.2
      else 1.0
    else 1.1
  let optimal := BASE_STOP_LOSS * volatility_factor * win_rate_factor
  max MIN_STOP_LOSS (min (pyRound1 optimal) MAX_STOP_LOSS)

/-- AdaptiveRiskSettings.calculate_optimal_take_profit, adaptive_settings.py
lines 199-237.  The final clamp applies round(optimal, 1) after the
max(optimal, min_target) enforcement of the 1.5:1 risk/reward floor. -/
def calculate_optimal_take_profit (mc : MarketConditions)
    (perf : StrategyPerformance) (stop_loss : ℚ) : ℚ :=
  let min_target := stop_loss * 1.5
  let trend_factor : ℚ := 1.0 + |mc.trend_strength| * 0.5
  let profit_factor : ℚ :=
    if perf.total_trades ≥ 10 ∧ perf.avg_profit > 0 then
      min 1.5 (1.0 + perf.avg_profit / 100)
    else 1.0
  let volatility_factor : ℚ :=
    if mc.volatility > 0.05 then 1.0 + mc.volatility * 3 else 1.0
  let optimal := BASE_TAKE_PROFIT * trend_factor * profit_factor * volatility_factor
  let optimal2 := max optimal min_target
  max MIN_TAKE_PROFIT (min (pyRound1 optimal2) MAX_TAKE_PROFIT)

/-- AdaptiveRiskSettings.calculate_adaptive_parameters, adaptive_settings.py
lines 239-292, for explicitly supplied (non-None) arguments; the None branches
of the source merely substitute fixed default records.  The method also stores
the result in the settings object; that snapshot is the returned value and is
modelled by the return value alone. -/
def calculate_adaptive_parameters (mc : MarketConditions)
    (perf : StrategyPerformance) : AdaptiveRiskParameters :=
  let max_leverage := calculate_optimal_leverage mc perf
  let max_position_size := calculate_optimal_position_size mc perf
  let stop_loss := calculate_optimal_stop_loss mc perf
  let take_profit := calculate_optimal_take_profit mc perf stop_loss
  { max_leverage := max_leverage
    max_position_size_percent := max_position_size
    stop_loss_percent := stop_loss
    take_profit_percent := take_profit }

end AdaptiveRiskSettings

/-! String helpers used to model the Python substring test (needle in hay)
and the percent formatting that appears in reason/warning strings. -/

/-- Check that the first list is an initial segment of the second. -/
def startsWithSeq : List Char → List Char → Bool
  | [], _ => true
  | _ :: _, [] => false
  | a :: as, b :: bs => a == b && startsWithSeq as bs

/-- Check that the first list occurs contiguously inside the second. -/
def containsSeq (needle : List Char) : List Char → Bool
  | [] => startsWithSeq needle []
  | c :: t => startsWithSeq needle (c :: t) || containsSeq needle t

/-- Model of the Python membership test (needle in hay) on strings. -/
def strContains (hay needle : String) : Bool :=
  containsSeq needle.toList hay.toList

/-- Model of the CPython format specifier :.1% (one-decimal percentage) for
the nonnegative exact-decimal values arising in this development. -/
def pctStr (x : ℚ) : String :=
  let n : ℤ := pyRound0 (x * 1000)
  (if n < 0 then "-" else "")
    ++ toString (n.natAbs / 10) ++ "." ++ toString (n.natAbs % 10) ++ "%"

/-! Model of src/src/kucoin_bot/config.py -/

/-- RiskConfig dataclass, config.py lines 28-45. -/
structure RiskConfig where
  max_leverage : ℤ := 10
  max_position_size_percent : ℚ := 5.0
  stop_loss_percent : ℚ := 2.0
  take_profit_percent : ℚ := 4.0
  max_open_positions : ℕ := 5
  max_daily_loss_percent : ℚ := 10.0
  adaptive_mode : Bool := true
deriving DecidableEq

/-! Model of src/src/kucoin_bot/strategies/base.py and of the dataclasses of
src/src/kucoin_bot/api/client.py and
src/src/kucoin_bot/risk_management/position_manager.py -/

/-- SignalType enum, base.py lines 8-14. -/
inductive SignalType where
  | long
  | short
  | close
  | hold
deriving DecidableEq

/-- Signal dataclass exactly as declared in base.py lines 17-28.  Note that
the dataclass has no strategy_name field, although risk_controller.py line 132
and bot.py line 285 read signal.strategy_name. -/
structure Signal where
  signal_type : SignalType
  symbol : String
  confidence : ℚ
  price : ℚ
  stop_loss : Option ℚ := none
  take_profit : Option ℚ := none
  leverage : ℤ := 1
  reason : String := ""
deriving DecidableEq

/-- Position dataclass, api/client.py lines 34-44. -/
structure Position where
  symbol : String
  side : String
  size : ℚ
  entry_price : ℚ
  leverage : ℤ
  unrealized_pnl : ℚ
  margin : ℚ
deriving DecidableEq

/-- PortfolioState dataclass, position_manager.py lines 29-38. -/
structure PortfolioState where
  total_balance : ℚ
  available_balance : ℚ
  unrealized_pnl : ℚ
  positions : List Position := []
  daily_pnl : ℚ := 0
  trade_count : ℤ := 0
deriving DecidableEq

/-! Model of src/src/kucoin_bot/risk_management/risk_controller.py -/

/-- RiskAssessment dataclass, risk_controller.py lines 13-21. -/
structure RiskAssessment where
  approved : Bool
  adjusted_signal : Option Signal
  risk_score : ℚ
  warnings : List String
  reason : String
deriving DecidableEq

/-- Mutable state of a RiskController instance, risk_controller.py lines
27-33: the config object handed to the constructor plus the consecutive-loss
counter and the recorded peak balance.  The two threshold attributes set in
the constructor are constant over the life of the object and are modelled as
the constants below. -/
structure RiskControllerState where
  config : RiskConfig
  consecutive_losses : ℕ := 0
  peak_balance : ℚ := 0
deriving DecidableEq

/-- Constant attribute of the controller, risk_controller.py line 31. -/
def maxConsecutiveLosses : ℕ := 5

/-- Constant attribute of the controller, risk_controller.py line 32. -/
def drawdownThreshold : ℚ := 0.15

/-- Exceptions raised by the arithmetic and attribute accesses of
assess_signal. -/
inductive PyExn where
  | attributeError
  | zeroDivisionError
deriving DecidableEq

/-- Rejection record returned by the drawdown gate of assess_signal
(risk_controller.py lines 50-56) at drawdown quotient d. -/
def ddRejection (d : ℚ) : RiskAssessment :=
  { approved := false, adjusted_signal := none, risk_score := 1.0,
    warnings := ["Maximum drawdown exceeded"],
    reason := "Drawdown of " ++ pctStr d ++ " exceeds threshold" }

/-- Rejection record returned by the consecutive-loss gate of assess_signal
(risk_controller.py lines 61-67). -/
def clRejection : RiskAssessment :=
  { approved := false, adjusted_signal := none, risk_score := 1.0,
    warnings := ["Too many consecutive losses"],
    reason := "Trading paused due to consecutive losses" }

/-- Rejection record returned by the daily-loss gate of assess_signal
(risk_controller.py lines 75-81). -/
def dlRejection : RiskAssessment :=
  { approved := false, adjusted_signal := none, risk_score := 1.0,
    warnings := ["Daily loss limit reached"],
    reason := "Maximum daily loss exceeded" }

/-- Risk score accumulated along the construction path of assess_signal,
risk_controller.py lines 40, 57, 68 and 86: the drawdown component (weight
0.3, only when a positive peak is recorded), the consecutive-loss component
(weight 0.2) and the low-confidence penalty 0.2. -/
def pathRisk (consecutive_losses : ℕ) (peak : ℚ) (signal : Signal)
    (pf : PortfolioState) : ℚ :=
  let risk1 : ℚ :=
    if peak > 0 then (peak - pf.total_balance) / peak / drawdownThreshold * 0.3
    else 0
  let risk2 : ℚ :=
    risk1 + (consecutive_losses : ℚ) / (maxConsecutiveLosses : ℚ) * 0.2
  if signal.confidence < 0.5 then risk2 + 0.2 else risk2

/-- Leverage adjustment of assess_signal, risk_controller.py lines 88-104:
halve on a more than 5 percent unrealized loss, subtract the consecutive-loss
count when it exceeds 2 (both floored at 1), cap at the configured maximum.
The floor division of line 95 is Int.fdiv. -/
def adjustedLeverageCalc (cfg : RiskConfig) (consecutive_losses : ℕ)
    (signal : Signal) (pf : PortfolioState) : ℤ :=
  let lev1 : ℤ :=
    if pf.unrealized_pnl < 0 ∧ |pf.unrealized_pnl| / pf.total_balance > 0.05 then
      max 1 (Int.fdiv signal.leverage 2)
    else signal.leverage
  let lev2 : ℤ :=
    if consecutive_losses > 2 then max 1 (lev1 - (consecutive_losses : ℤ))
    else lev1
  min lev2 cfg.max_leverage

/-- Stop-loss widening of assess_signal, risk_controller.py lines 106-120.
Python truthiness of stop_loss and price (None and 0.0 are falsy) guards the
computation. -/
def adjustedStopCalc (cfg : RiskConfig) (signal : Signal) : Option ℚ :=
  let truthy : Bool :=
    (match signal.stop_loss with
      | some v => decide (v ≠ 0)
      | none => false) && decide (signal.price ≠ 0)
  if truthy then
    let sl := signal.stop_loss.getD 0
    let stop_distance : ℚ := |signal.price - sl| / signal.price
    let min_stop_distance : ℚ := cfg.stop_loss_percent / 100
    if stop_distance < min_stop_distance then
      some (if signal.signal_type = SignalType.long then
              signal.price * (1 - min_stop_distance)
            else signal.price * (1 + min_stop_distance))
    else signal.stop_loss
  else signal.stop_loss

/-- Warnings accumulated along the construction path of assess_signal, in
source order: low confidence (line 85), unrealized-loss leverage reduction
(line 96), consecutive-loss leverage reduction (line 101), stop-loss
widening (line 116). -/
def pathWarnings (cfg : RiskConfig) (consecutive_losses : ℕ) (signal : Signal)
    (pf : PortfolioState) : List String :=
  let warnings1 : List String :=
    if signal.confidence < 0.5 then
      ["Low confidence signal: " ++ pctStr signal.confidence]
    else []
  let warnings2 : List String :=
    if pf.unrealized_pnl < 0 ∧ |pf.unrealized_pnl| / pf.total_balance > 0.05 then
      warnings1 ++ ["Leverage reduced due to unrealized losses"]
    else warnings1
  let warnings3 : List String :=
    if consecutive_losses > 2 then
      warnings2 ++ ["Leverage reduced due to consecutive losses"]
    else warnings2
  let truthy : Bool :=
    (match signal.stop_loss with
      | some v => decide (v ≠ 0)
      | none => false) && decide (signal.price ≠ 0)
  if truthy then
    let sl := signal.stop_loss.getD 0
    let stop_distance : ℚ := |signal.price - sl| / signal.price
    let min_stop_distance : ℚ := cfg.stop_loss_percent / 100
    if stop_distance < min_stop_distance then
      warnings3 ++ ["Stop loss adjusted to minimum distance"]
    else warnings3
  else warnings3

/-- Outcome of the body of assess_signal up to (not including) the
construction of the adjusted Signal at risk_controller.py lines 122-133:
either an early-return rejection, a ZeroDivisionError raised at line 93 when
the total balance is zero, or arrival at the construction site carrying the
accumulated risk score, warnings, adjusted leverage and adjusted stop-loss. -/
inductive AssessOutcome where
  | rejected (a : RiskAssessment)
  | raisedZeroDiv
  | approvedPath (risk : ℚ) (warnings : List String)
      (adjusted_leverage : ℤ) (adjusted_stop_loss : Option ℚ)
deriving DecidableEq

/-- Shared body of RiskController.assess_signal, risk_controller.py lines
35-121: peak-balance update, the drawdown, consecutive-loss and daily-loss
gates, the confidence warning, the leverage reduction and the stop-loss
widening.  Python truthiness of stop_loss and price (None and 0.0 are falsy)
is modelled explicitly, and the floor division of line 95 is Int.fdiv. -/
def assessSignalCore (st : RiskControllerState) (signal : Signal)
    (pf : PortfolioState) : RiskControllerState × AssessOutcome :=
  -- lines 42-44: update peak balance
  let peak : ℚ :=
    if pf.total_balance > st.peak_balance then pf.total_balance
    else st.peak_balance
  let st1 : RiskControllerState := { st with peak_balance := peak }
  -- lines 46-56: drawdown gate
  let drawdown : ℚ := (peak - pf.total_balance) / peak
  if peak > 0 ∧ drawdown > drawdownThreshold then
    (st1, .rejected (ddRejection drawdown))
  -- lines 59-67: consecutive-loss gate
  else if st.consecutive_losses ≥ maxConsecutiveLosses then
    (st1, .rejected clRejection)
  -- lines 70-81: daily-loss gate
  else if pf.daily_pnl
      < -(pf.total_balance * st.config.max_daily_loss_percent / 100) then
    (st1, .rejected dlRejection)
  -- line 93 raises ZeroDivisionError when the total balance is zero and an
  -- unrealized loss is present (nothing observable precedes the raise)
  else if pf.unrealized_pnl < 0 ∧ pf.total_balance = 0 then
    (st1, .raisedZeroDiv)
  -- lines 83-121: risk accumulation, warnings, leverage and stop adjustment
  else
    (st1, .approvedPath
      (pathRisk st.consecutive_losses peak signal pf)
      (pathWarnings st.config st.consecutive_losses signal pf)
      (adjustedLeverageCalc st.config st.consecutive_losses signal pf)
      (adjustedStopCalc st.config signal))

/-- RiskController.assess_signal, risk_controller.py lines 35-141, exactly as
written: on every path that reaches line 123 the construction of the adjusted
Signal evaluates signal.strategy_name (line 132), an attribute the Signal
dataclass of base.py does not declare, so the call raises AttributeError;
this is modelled as Except.error PyExn.attributeError. -/
def assessSignal (st : RiskControllerState) (signal : Signal)
    (pf : PortfolioState) : RiskControllerState × Except PyExn RiskAssessment :=
  match assessSignalCore st signal pf with
  | (st1, .rejected a) => (st1, .ok a)
  | (st1, .raisedZeroDiv) => (st1, .error .zeroDivisionError)
  | (st1, .approvedPath _ _ _ _) => (st1, .error .attributeError)

/-- Adjusted Signal constructed at risk_controller.py lines 123-133: every
field is copied from the input signal except the adjusted stop loss and the
adjusted leverage. -/
def adjustedCopy (signal : Signal) (lev : ℤ) (sl : Option ℚ) : Signal :=
  { signal_type := signal.signal_type, symbol := signal.symbol,
    confidence := signal.confidence, price := signal.price,
    stop_loss := sl, take_profit := signal.take_profit,
    leverage := lev, reason := signal.reason }

/-- Modelled from the spec: the approve path of assess_signal as the spec and
the repository tests intend it.  The Signal record of the spec data model
carries the strategy name of the originating strategy, so the construction at
risk_controller.py lines 122-133 succeeds and lines 135-141 return an approved
assessment with the adjusted copy; the strategy-name field itself is absent
from the Signal dataclass under src and is not modelled.  All gating,
scoring and adjustment logic is shared verbatim with assessSignal through
assessSignalCore. -/
def assessSignalSpec (st : RiskControllerState) (signal : Signal)
    (pf : PortfolioState) : RiskControllerState × Except PyExn RiskAssessment :=
  match assessSignalCore st signal pf with
  | (st1, .rejected a) => (st1, .ok a)
  | (st1, .raisedZeroDiv) => (st1, .error .zeroDivisionError)
  | (st1, .approvedPath risk warnings adjusted_leverage adjusted_stop_loss) =>
    (st1, .ok
      { approved := true,
        adjusted_signal :=
          some (adjustedCopy signal adjusted_leverage adjusted_stop_loss),
        risk_score := min risk 1.0,
        warnings := warnings,
        reason := "Signal approved"
          ++ (if warnings ≠ [] then " with adjustments" else "") })

/-- RiskController.on_trade_result, risk_controller.py lines 143-151. -/
def onTradeResult (st : RiskControllerState) (pnl : ℚ) : RiskControllerState :=
  if pnl < 0 then { st with consecutive_losses := st.consecutive_losses + 1 }
  else { st with consecutive_losses := 0 }

/-- Modelled from the spec: RiskController.update_adaptive_parameters is
called by bot.py lines 199-222 and exercised by
tests/test_adaptive_settings.py, but the method (and is_adaptive_mode) is not
present in src risk_controller.py.  Per spec section 4.2 it delegates to the
Adaptive Risk Engine when adaptive mode is enabled, writes the returned
bounds into the controller config object, and returns the new parameters;
when adaptive mode is disabled it is a no-op returning nothing. -/
def updateAdaptiveParameters (st : RiskControllerState) (mc : MarketConditions)
    (perf : StrategyPerformance) :
    RiskControllerState × Option AdaptiveRiskParameters :=
  if st.config.adaptive_mode then
    let params := AdaptiveRiskSettings.calculate_adaptive_parameters mc perf
    ({ st with config :=
        { st.config with
          max_leverage := params.max_leverage,
          max_position_size_percent := params.max_position_size_percent,
          stop_loss_percent := params.stop_loss_percent,
          take_profit_percent := params.take_profit_percent } },
     some params)
  else (st, none)

/-- Effective leverage with which PositionManager.open_position places its
order, position_manager.py line 139 (also computed identically in
calculate_position_size at line 88). -/
def openPositionEffectiveLeverage (signal : Signal) (config : RiskConfig) : ℤ :=
  min signal.leverage config.max_leverage

/-! Model of src/src/kucoin_bot/strategies/strategy_manager.py

The analyze heuristics of the individual strategies are excluded plug-ins
(spec section 1): for one fixed call of get_best_signal with a fixed symbol
and price/volume history, each registered strategy contributes its name, its
enabled flag, its performance_score and the Signal (or nothing) its analyze
returned for that history.  A strategy whose analyze raises is logged and
skipped, which has the same effect on get_signals as returning None, so both
are modelled by analyzeResult none. -/

/-- Registered strategy as seen by StrategyManager for one fixed call:
BaseStrategy.name, BaseStrategy.enabled, BaseStrategy.performance_score and
the outcome of its analyze for the history under consideration. -/
structure Strat where
  name : String
  enabled : Bool
  perfScore : ℚ
  analyzeResult : Option Signal
deriving DecidableEq

/-- Lookup in the _last_signals dict, modelled as an association list whose
newest binding for a key stands first (insertion conses in getSignals, so
first match is dict overwrite semantics). -/
def alookup (m : List (String × Signal)) (k : String) : Option Signal :=
  match m with
  | [] => none
  | (k2, v) :: rest => if k2 = k then some v else alookup rest k

/-- StrategyManager.get_signals, strategy_manager.py lines 43-61: collect the
non-HOLD signals of the enabled strategies in registration order, recording
each under the key name_symbol in _last_signals. -/
def getSignals (strats : List Strat) (symbol : String)
    (last : List (String × Signal)) : List Signal × List (String × Signal) :=
  match strats with
  | [] => ([], last)
  | st :: rest =>
    match (if st.enabled then st.analyzeResult else none) with
    | some s =>
      if s.signal_type ≠ SignalType.hold then
        let r := getSignals rest symbol ((st.name ++ "_" ++ symbol, s) :: last)
        (s :: r.1, r.2)
      else getSignals rest symbol last
    | none => getSignals rest symbol last

/-- Strategy-attribution loop of get_best_signal, strategy_manager.py lines
83-90: the first registered strategy (enabled or not) whose name occurs in
the signal reason, or whose _last_signals entry for this symbol equals the
signal. -/
def firstMatch (strats : List Strat) (last : List (String × Signal))
    (symbol : String) (s : Signal) : Option Strat :=
  strats.find? (fun st =>
    strContains s.reason st.name
      || decide (alookup last (st.name ++ "_" ++ symbol) = some s))

/-- Scoring loop of get_best_signal, strategy_manager.py lines 79-90: each
signal whose attribution succeeds is paired with confidence times the
attributed strategy performance_score.  The strategy-name component of the
source triple is dropped (it is only logged). -/
def scoredSignals (strats : List Strat) (last : List (String × Signal))
    (symbol : String) (signals : List Signal) : List (ℚ × Signal) :=
  signals.filterMap (fun s =>
    (firstMatch strats last symbol s).map (fun st => (s.confidence * st.perfScore, s)))

/-- First element of maximal score.  The source sorts the scored list with a
stable descending sort (Python list.sort with reverse True keeps the original
order of equal keys) and takes index 0, which selects exactly the earliest
maximal-score element. -/
def pickFirstMax : List (ℚ × Signal) → Option (ℚ × Signal)
  | [] => none
  | x :: xs =>
    match pickFirstMax xs with
    | none => some x
    | some y => if y.1 > x.1 then some y else some x

/-- StrategyManager.get_best_signal, strategy_manager.py lines 63-104,
returning the chosen signal together with the updated _last_signals state. -/
def getBestSignal (strats : List Strat) (symbol : String)
    (last : List (String × Signal)) :
    Option Signal × List (String × Signal) :=
  let r := getSignals strats symbol last
  if r.1.isEmpty then (none, r.2)
  else
    match pickFirstMax (scoredSignals strats r.2 symbol r.1) with
    | none => (none, r.2)
    | some best => (some best.2, r.2)

/-- Pairs (strategy, signal) of the non-HOLD signals the enabled strategies
produce, in registration order. -/
def producedSignals (strats : List Strat) : List (Strat × Signal) :=
  strats.filterMap (fun st =>
    match (if st.enabled then st.analyzeResult else none) with
    | some s =>
      if s.signal_type ≠ SignalType.hold then some (st, s) else none
    | none => none)

/-- Statement of claim C6 in the words of the spec: among the non-HOLD
signals produced by enabled strategies, the one maximizing confidence times
the performance score of the ORIGINATING strategy, ties broken by
registration order; none when there is no such signal. -/
def claimedBestSignal (strats : List Strat) : Option Signal :=
  (pickFirstMax ((producedSignals strats).map
    (fun p => (p.2.confidence * p.1.perfScore, p.2)))).map (fun q => q.2)

/-- Strategy as seen by auto_adjust_strategies: its enabled flag together
with its rolling trade-outcome list _strategy_performance[name]
(strategy_manager.py lines 106-121). -/
structure ManagedStrategy where
  name : String
  enabled : Bool
  history : List ℚ
deriving DecidableEq

/-- Python slice history[-20:]. -/
def lastTwenty (l : List ℚ) : List ℚ := l.drop (l.length - 20)

/-- Body of the loop of StrategyManager.auto_adjust_strategies,
strategy_manager.py lines 155-178, for one strategy. -/
def autoAdjustOne (s : ManagedStrategy) : ManagedStrategy :=
  if s.history.length < 20 then s
  else
    let recent := lastTwenty s.history
    let recent_pnl := recent.sum
    let recent_win_rate : ℚ := ((recent.filter (fun p => p > 0)).length : ℚ) / 20
    if recent_pnl < -10 ∧ recent_win_rate < 0.3 then
      { s with enabled := false }
    else if recent_pnl > 5 ∧ recent_win_rate > 0.5 ∧ s.enabled = false then
      { s with enabled := true }
    else s

/-- StrategyManager.auto_adjust_strategies, strategy_manager.py lines
155-178. -/
def autoAdjustStrategies (l : List ManagedStrategy) : List ManagedStrategy :=
  l.map autoAdjustOne

/-! Model of src/src/kucoin_bot/utils/market_analyzer.py -/

/-- MarketData dataclass, api/client.py lines 22-31. -/
structure MarketData where
  symbol : String
  price : ℚ
  volume_24h : ℚ
  high_24h : ℚ
  low_24h : ℚ
  volatility : ℚ
  timestamp : ℤ
deriving DecidableEq

/-- TradingConfig dataclass, config.py lines 49-57. -/
structure TradingConfig where
  min_volume_usd : ℚ := 1000000.0
  min_volatility : ℚ := 0.02
  max_volatility : ℚ := 0.15
  update_interval_seconds : ℤ := 60
  strategy_switch_interval : ℤ := 300
deriving DecidableEq

/-- PairScore dataclass, market_analyzer.py lines 12-20. -/
structure PairScore where
  symbol : String
  volume_score : ℚ
  volatility_score : ℚ
  trend_score : ℚ
  total_score : ℚ
deriving DecidableEq

/-- MarketAnalyzer.calculate_pair_score, market_analyzer.py lines 102-130. -/
def calculate_pair_score (cfg : TradingConfig) (md : MarketData) : PairScore :=
  let volume_score : ℚ := min (md.volume_24h / cfg.min_volume_usd) 10.0
  let volatility_score : ℚ :=
    if md.volatility < cfg.min_volatility then
      md.volatility / cfg.min_volatility
    else if md.volatility > cfg.max_volatility then
      cfg.max_volatility / md.volatility
    else
      1.0 + (md.volatility - cfg.min_volatility)
        / (cfg.max_volatility - cfg.min_volatility)
  let trend_score : ℚ := 1.0
  let total_score := volume_score * 0.4 + volatility_score * 0.4 + trend_score * 0.2
  { symbol := md.symbol, volume_score := volume_score,
    volatility_score := volatility_score, trend_score := trend_score,
    total_score := total_score }

/-- Stable insertion of an element into a list sorted descending by key: the
element goes after every strictly greater key and before every key less than
or equal to its own. -/
def insertDesc {α : Type} (key : α → ℚ) (x : α) : List α → List α
  | [] => [x]
  | y :: ys => if key y ≤ key x then x :: y :: ys else y :: insertDesc key x ys

/-- Stable descending sort by key; models Python list.sort with a key and
reverse True, which keeps the original order of equal keys. -/
def sortDesc {α : Type} (key : α → ℚ) : List α → List α
  | [] => []
  | x :: xs => insertDesc key x (sortDesc key xs)

/-- Loop body of MarketAnalyzer.select_best_pairs, market_analyzer.py lines
147-176, for one fetched symbol: none models a symbol whose get_market_data
returned None; otherwise the pair is scored and recorded, then dropped by the
minimum-volume filter or the volatility-range filter, or appended to the
scored survivors.  The accumulator is (scored_pairs, all_pairs_with_data). -/
def selectBestPairsStep (cfg : TradingConfig)
    (acc : List PairScore × List (MarketData × PairScore))
    (omd : Option MarketData) :
    List PairScore × List (MarketData × PairScore) :=
  match omd with
  | none => acc
  | some md =>
    let score := calculate_pair_score cfg md
    let all := acc.2 ++ [(md, score)]
    if md.volume_24h < cfg.min_volume_usd then (acc.1, all)
    else if md.volatility < cfg.min_volatility ∨ md.volatility > cfg.max_volatility then
      (acc.1, all)
    else (acc.1 ++ [score], all)

/-- MarketAnalyzer.select_best_pairs, market_analyzer.py lines 132-192.  The
input list holds, per fetched tradeable symbol in order, the MarketData its
get_market_data call yielded (none when it failed). -/
def select_best_pairs (cfg : TradingConfig) (fetched : List (Option MarketData))
    (max_pairs : ℕ) : List PairScore :=
  let (scored, all) := fetched.foldl (selectBestPairsStep cfg) ([], [])
  let sorted := sortDesc (fun p => p.total_score) scored
  if scored.isEmpty ∧ ¬ all.isEmpty then
    ((sortDesc (fun x => x.1.volume_24h) all).take max_pairs).map (fun x => x.2)
  else sorted.take max_pairs

/-- MarketData passing both selection filters of select_best_pairs (volume at
least the configured minimum, volatility inside the configured range). -/
def survivesFilters (cfg : TradingConfig) (md : MarketData) : Bool :=
  !(decide (md.volume_24h < cfg.min_volume_usd))
    && !(decide (md.volatility < cfg.min_volatility)
          || decide (md.volatility > cfg.max_volatility))

/-! Concrete fixtures used by the closed instances below.  sigFix, pfFix and
rcFix mirror the fixtures of tests/test_risk_management.py (lines 34-75). -/

/-- Word used to state that a reason string mentions the drawdown gate. -/
def ddWord : String := "Drawdown"

/-- Word used to state that a reason string mentions the consecutive-loss
gate. -/
def clWord : String := "consecutive"

/-- Signal fixture of tests/test_risk_management.py lines 63-75. -/
def sigFix : Signal :=
  { signal_type := .long, symbol := "BTCUSDTM", confidence := 0.75,
    price := 50000, stop_loss := some 49000, take_profit := some 52000,
    leverage := 5, reason := "Test signal" }

/-- Portfolio fixture of tests/test_risk_management.py lines 51-61. -/
def pfFix : PortfolioState :=
  { total_balance := 10000, available_balance := 8000, unrealized_pnl := 0,
    positions := [], daily_pnl := 0, trade_count := 0 }

/-- Fresh controller over the default RiskConfig of config.py. -/
def rcFix : RiskControllerState := { config := {} }

/-- Market conditions exhibiting the take-profit rounding defect. -/
def mcRatioBug : MarketConditions :=
  { volatility := 0.095, trend_strength := 0, volumeRel := 1 }

/-- Performance record exhibiting the take-profit rounding defect. -/
def perfRatioBug : StrategyPerformance :=
  { win_rate := 0.3, avg_profit := 0, avg_loss := 0, sharpe := 0,
    total_trades := 10 }

/-- Portfolio at balance 15000, used to push the recorded peak up. -/
def pfPeak : PortfolioState :=
  { total_balance := 15000, available_balance := 15000, unrealized_pnl := 0 }

/-- Controller state reached from rcFix after five losing trade results. -/
def rcFiveLosses : RiskControllerState :=
  onTradeResult (onTradeResult (onTradeResult (onTradeResult
    (onTradeResult rcFix (-100)) (-100)) (-100)) (-100)) (-100)

/-- Long signal whose free-text reason happens to contain the name of the
strategy alpha although it is produced by the strategy beta. -/
def sigFromBeta : Signal :=
  { signal_type := .long, symbol := "XUSDTM", confidence := 9/10,
    price := 100, leverage := 1, reason := "alpha momentum buy" }

/-- Short signal produced by the strategy gamma. -/
def sigFromGamma : Signal :=
  { signal_type := .short, symbol := "XUSDTM", confidence := 4/5,
    price := 100, leverage := 1, reason := "gamma reversion" }

/-- First registered strategy: enabled, top performance score, no signal for
this history. -/
def stratAlpha : Strat :=
  { name := "alpha", enabled := true, perfScore := 1, analyzeResult := none }

/-- Second registered strategy: poorly performing, produces sigFromBeta. -/
def stratBeta : Strat :=
  { name := "beta", enabled := true, perfScore := 1/10,
    analyzeResult := some sigFromBeta }

/-- Third registered strategy: mid performance, produces sigFromGamma. -/
def stratGamma : Strat :=
  { name := "gamma", enabled := true, perfScore := 1/2,
    analyzeResult := some sigFromGamma }

/-- Signal whose reason carries the name of its producing strategy. -/
def sigSolo : Signal :=
  { signal_type := .long, symbol := "XUSDTM", confidence := 7/10,
    price := 100, leverage := 2, reason := "TrendFollowing breakout" }

/-- Single registered strategy producing sigSolo. -/
def stratSolo : Strat :=
  { name := "TrendFollowing", enabled := true, perfScore := 1/2,
    analyzeResult := some sigSolo }


/-! Helper lemmas -/

/-- The peak-balance update of assess_signal line 43 computes the maximum of
the recorded peak and the current balance. -/
theorem peak_update_eq_max (st : RiskControllerState) (pf : PortfolioState) :
    (if pf.total_balance > st.peak_balance then pf.total_balance
      else st.peak_balance) = max st.peak_balance pf.total_balance := by
  rcases lt_or_ge st.peak_balance pf.total_balance with h | h
  · rw [if_pos h, max_eq_right h.le]
  · rw [if_neg (not_lt.mpr h), max_eq_left h]

/-- A positive drawdown quotient forces a positive peak. -/
theorem peak_pos_of_quotient_gt (st : RiskControllerState) (pf : PortfolioState)
    (h : drawdownThreshold <
      (max st.peak_balance pf.total_balance - pf.total_balance)
        / max st.peak_balance pf.total_balance) :
    0 < max st.peak_balance pf.total_balance := by
  by_contra hle
  push_neg at hle
  have hnum : 0 ≤ max st.peak_balance pf.total_balance - pf.total_balance :=
    sub_nonneg.mpr (le_max_right _ _)
  have hq : (max st.peak_balance pf.total_balance - pf.total_balance)
      / max st.peak_balance pf.total_balance ≤ 0 := by
    rcases eq_or_lt_of_le hle with h0 | h0
    · rw [h0, div_zero]
    · exact div_nonpos_of_nonneg_of_nonpos hnum hle
  have : drawdownThreshold < 0 := lt_of_lt_of_le h hq
  norm_num [drawdownThreshold] at this

/-- Membership of an initial segment is preserved by extension on the
right. -/
theorem startsWithSeq_append_right (n : List Char) :
    ∀ (s t : List Char), startsWithSeq n s = true →
      startsWithSeq n (s ++ t) = true := by
  induction n with
  | nil => intro s t _; rfl
  | cons a as ih =>
    intro s t h
    cases s with
    | nil => simp [startsWithSeq] at h
    | cons b bs =>
      simp only [startsWithSeq, Bool.and_eq_true] at h ⊢
      exact ⟨h.1, ih bs t h.2⟩

/-- A contiguous occurrence survives extension on the right. -/
theorem containsSeq_append_left (n : List Char) :
    ∀ (s t : List Char), containsSeq n s = true →
      containsSeq n (s ++ t) = true := by
  intro s
  induction s with
  | nil =>
    intro t h
    simp only [containsSeq] at h
    cases n with
    | nil =>
      cases t with
      | nil => rfl
      | cons c cs => simp [containsSeq, startsWithSeq]
    | cons a as => simp [startsWithSeq] at h
  | cons c cs ih =>
    intro t h
    simp only [containsSeq, Bool.or_eq_true] at h ⊢
    rcases h with h | h
    · exact Or.inl (startsWithSeq_append_right n _ t h)
    · exact Or.inr (ih t h)

/-- The Python membership test is stable under appending to the haystack. -/
theorem strContains_append (s t needle : String)
    (h : strContains s needle = true) :
    strContains (s ++ t) needle = true := by
  have hl : (s ++ t).toList = s.toList ++ t.toList := by
    simp [String.toList, String.data_append]
  simpa [strContains, hl] using containsSeq_append_left needle.toList _ _ h

/-! Claim theorems -/

/-- C1: for every MarketConditions and StrategyPerformance input the four
bound conjuncts hold (1 ≤ max_leverage ≤ 20, 1.0 ≤ position size ≤ 10.0,
0.5 ≤ stop loss ≤ 5.0, 1.0 ≤ take profit ≤ 10.0), but the final conjunct
fails on the code: the 1.5x risk/reward floor of calculate_optimal_take_profit
(its own docstring demands a minimum 1.5:1 ratio) is applied before the
one-decimal rounding, and at volatility 0.095 with win rate 0.3 over 10
trades the code returns stop loss 3.5 and take profit 5.2 < 5.25. -/
theorem C1_bounds_hold_ratio_fails :
    (∀ (mc : MarketConditions) (perf : StrategyPerformance),
      1 ≤ (AdaptiveRiskSettings.calculate_adaptive_parameters mc perf).max_leverage
      ∧ (AdaptiveRiskSettings.calculate_adaptive_parameters mc perf).max_leverage ≤ 20
      ∧ (1.0 : ℚ) ≤ (AdaptiveRiskSettings.calculate_adaptive_parameters mc perf).max_position_size_percent
      ∧ (AdaptiveRiskSettings.calculate_adaptive_parameters mc perf).max_position_size_percent ≤ 10.0
      ∧ (0.5 : ℚ) ≤ (AdaptiveRiskSettings.calculate_adaptive_parameters mc perf).stop_loss_percent
      ∧ (AdaptiveRiskSettings.calculate_adaptive_parameters mc perf).stop_loss_percent ≤ 5.0
      ∧ (1.0 : ℚ) ≤ (AdaptiveRiskSettings.calculate_adaptive_parameters mc perf).take_profit_percent
      ∧ (AdaptiveRiskSettings.calculate_adaptive_parameters mc perf).take_profit_percent ≤ 10.0)
    ∧ ((AdaptiveRiskSettings.calculate_adaptive_parameters mcRatioBug perfRatioBug).stop_loss_percent = 3.5
       ∧ (AdaptiveRiskSettings.calculate_adaptive_parameters mcRatioBug perfRatioBug).take_profit_percent = 5.2
       ∧ (AdaptiveRiskSettings.calculate_adaptive_parameters mcRatioBug perfRatioBug).take_profit_percent
           < 1.5 * (AdaptiveRiskSettings.calculate_adaptive_parameters mcRatioBug perfRatioBug).stop_loss_percent) := by
  constructor
  · intro mc perf
    simp only [AdaptiveRiskSettings.calculate_adaptive_parameters,
      AdaptiveRiskSettings.calculate_optimal_leverage,
      AdaptiveRiskSettings.calculate_optimal_position_size,
      AdaptiveRiskSettings.calculate_optimal_stop_loss,
      AdaptiveRiskSettings.calculate_optimal_take_profit,
      AdaptiveRiskSettings.MIN_LEVERAGE, AdaptiveRiskSettings.MAX_LEVERAGE_CAP,
      AdaptiveRiskSettings.MIN_POSITION_SIZE, AdaptiveRiskSettings.MAX_POSITION_SIZE,
      AdaptiveRiskSettings.MIN_STOP_LOSS, AdaptiveRiskSettings.MAX_STOP_LOSS,
      AdaptiveRiskSettings.MIN_TAKE_PROFIT, AdaptiveRiskSettings.MAX_TAKE_PROFIT]
    refine ⟨le_max_left _ _, max_le (by norm_num) (min_le_right _ _),
      le_max_left _ _, max_le (by norm_num) (min_le_right _ _),
      le_max_left _ _, max_le (by norm_num) (min_le_right _ _),
      le_max_left _ _, max_le (by norm_num) (min_le_right _ _)⟩
  · norm_num [AdaptiveRiskSettings.calculate_adaptive_parameters,
      AdaptiveRiskSettings.calculate_optimal_leverage,
      AdaptiveRiskSettings.calculate_optimal_position_size,
      AdaptiveRiskSettings.calculate_optimal_stop_loss,
      AdaptiveRiskSettings.calculate_optimal_take_profit,
      AdaptiveRiskSettings.MIN_LEVERAGE, AdaptiveRiskSettings.MAX_LEVERAGE_CAP,
      AdaptiveRiskSettings.MIN_POSITION_SIZE, AdaptiveRiskSettings.MAX_POSITION_SIZE,
      AdaptiveRiskSettings.MIN_STOP_LOSS, AdaptiveRiskSettings.MAX_STOP_LOSS,
      AdaptiveRiskSettings.MIN_TAKE_PROFIT, AdaptiveRiskSettings.MAX_TAKE_PROFIT,
      AdaptiveRiskSettings.BASE_LEVERAGE, AdaptiveRiskSettings.BASE_POSITION_SIZE,
      AdaptiveRiskSettings.BASE_STOP_LOSS, AdaptiveRiskSettings.BASE_TAKE_PROFIT,
      mcRatioBug, perfRatioBug, pyRound1, pyRound0]

/-- C2: on the fully-populated approval fixture of
tests/test_risk_management.py (no gate trips, confidence 0.75) assess_signal
does not return an approved assessment: its body reaches the adjusted-Signal
construction with risk score 0, no warnings, leverage 5 and stop loss 49000,
and the construction raises AttributeError because it reads
signal.strategy_name (risk_controller.py line 132), a field the Signal
dataclass of base.py does not declare. -/
theorem C2_approval_path_raises :
    (assessSignalCore rcFix sigFix pfFix).2
        = AssessOutcome.approvedPath 0 [] 5 (some 49000)
    ∧ (assessSignal rcFix sigFix pfFix).2 = Except.error PyExn.attributeError := by
  have h : (assessSignalCore rcFix sigFix pfFix)
      = ({ rcFix with peak_balance := 10000 },
         AssessOutcome.approvedPath 0 [] 5 (some 49000)) := by
    norm_num [assessSignalCore, pathRisk, pathWarnings, adjustedLeverageCalc,
      adjustedStopCalc, rcFix, sigFix, pfFix, drawdownThreshold,
      maxConsecutiveLosses]
  exact ⟨by rw [h], by rw [assessSignal, h]⟩

/-- C5: whenever the drawdown quotient against the freshly updated peak
exceeds the 15 percent threshold, assess_signal records the new peak, rejects
the signal with approved false and risk score 1.0, and the reason mentions
the drawdown. -/
theorem C5_drawdown_rejects (st : RiskControllerState) (sig : Signal)
    (pf : PortfolioState)
    (h : drawdownThreshold <
      (max st.peak_balance pf.total_balance - pf.total_balance)
        / max st.peak_balance pf.total_balance) :
    (assessSignal st sig pf).1.peak_balance
        = max st.peak_balance pf.total_balance
    ∧ ∃ a, (assessSignal st sig pf).2 = Except.ok a
        ∧ a.approved = false ∧ a.risk_score = 1.0
        ∧ strContains a.reason ddWord = true := by
  have hpos := peak_pos_of_quotient_gt st pf h
  have hcore : assessSignalCore st sig pf
      = ({ st with peak_balance := max st.peak_balance pf.total_balance },
         AssessOutcome.rejected (ddRejection
           ((max st.peak_balance pf.total_balance - pf.total_balance)
             / max st.peak_balance pf.total_balance))) := by
    simp only [assessSignalCore, peak_update_eq_max]
    rw [if_pos ⟨hpos, h⟩]
  have hsnd : (assessSignal st sig pf).2
      = Except.ok (ddRejection
          ((max st.peak_balance pf.total_balance - pf.total_balance)
            / max st.peak_balance pf.total_balance)) := by
    simp [assessSignal, hcore]
  have hb : strContains ("Drawdown of ") ddWord = true := by decide
  exact ⟨by simp [assessSignal, hcore], _, hsnd, rfl, rfl,
    strContains_append _ _ _ (strContains_append _ _ _ hb)⟩

/-- Controller state whose recorded peak is 15000, as in the drawdown test of
tests/test_risk_management.py lines 130-138. -/
def rcPeak : RiskControllerState := { config := {}, peak_balance := 15000 }

/-- C5 witness: at peak 15000 and balance 10000 (33 percent drawdown) the
hypothesis holds and the rejection follows. -/
theorem C5_drawdown_rejects_witness :
    (assessSignal rcPeak sigFix pfFix).1.peak_balance
        = max rcPeak.peak_balance pfFix.total_balance
    ∧ ∃ a, (assessSignal rcPeak sigFix pfFix).2 = Except.ok a
        ∧ a.approved = false ∧ a.risk_score = 1.0
        ∧ strContains a.reason ddWord = true :=
  C5_drawdown_rejects rcPeak sigFix pfFix
    (by norm_num [rcPeak, pfFix, drawdownThreshold])

/-- C4 counterexample: after five consecutive losses, an assess_signal call
at balance 15000 (rejected for consecutive losses, recording peak 15000)
followed by one at balance 10000 yields approved false, but with a reason
that does not mention consecutive losses: the drawdown gate fires first.
This refutes the claim that every subsequent call reports the
consecutive-loss reason for any signal and portfolio. -/
theorem C4_reason_counterexample :
    ∃ a, (assessSignal (assessSignal rcFiveLosses sigFix pfPeak).1
            sigFix pfFix).2 = Except.ok a
      ∧ a.approved = false ∧ strContains a.reason clWord = false := by
  have h5 : rcFiveLosses = { config := {}, consecutive_losses := 5 } := by
    norm_num [rcFiveLosses, rcFix, onTradeResult]
  have hA : (assessSignal rcFiveLosses sigFix pfPeak).1
      = { config := {}, consecutive_losses := 5, peak_balance := 15000 } := by
    rw [h5]
    norm_num [assessSignal, assessSignalCore, sigFix, pfPeak,
      drawdownThreshold, maxConsecutiveLosses]
  rw [hA]
  have hB : (assessSignal
        { config := {}, consecutive_losses := 5, peak_balance := 15000 }
        sigFix pfFix).2
      = Except.ok (ddRejection (1/3)) := by
    norm_num [assessSignal, assessSignalCore, ddRejection, sigFix, pfFix,
      drawdownThreshold, maxConsecutiveLosses]
  refine ⟨ddRejection (1/3), hB, rfl, ?_⟩
  have hp : pctStr (1/3 : ℚ) = "33.3%" := by
    norm_num [pctStr, pyRound0]
    decide
  simp only [ddRejection, hp]
  decide

/-- C4 amended: five consecutive losing on_trade_result calls drive the
counter to at least five; from such a state assess_signal returns approved
false for every signal and portfolio, and the reason mentions consecutive
losses whenever the drawdown gate does not fire first (drawdown quotient at
most the threshold); a single winning trade result resets the counter to
zero, below the gate. -/
theorem C4_amended_consecutive_losses :
    (∀ (st : RiskControllerState) (p1 p2 p3 p4 p5 : ℚ),
      p1 < 0 → p2 < 0 → p3 < 0 → p4 < 0 → p5 < 0 →
      maxConsecutiveLosses ≤ (onTradeResult (onTradeResult (onTradeResult
        (onTradeResult (onTradeResult st p1) p2) p3) p4) p5).consecutive_losses)
    ∧ (∀ (st : RiskControllerState) (sig : Signal) (pf : PortfolioState),
        maxConsecutiveLosses ≤ st.consecutive_losses →
        ∃ a, (assessSignal st sig pf).2 = Except.ok a ∧ a.approved = false
          ∧ ((max st.peak_balance pf.total_balance - pf.total_balance)
               / max st.peak_balance pf.total_balance ≤ drawdownThreshold →
             strContains a.reason clWord = true))
    ∧ (∀ (st : RiskControllerState) (pnl : ℚ), 0 < pnl →
        (onTradeResult st pnl).consecutive_losses = 0
        ∧ (onTradeResult st pnl).consecutive_losses < maxConsecutiveLosses) := by
  refine ⟨?_, ?_, ?_⟩
  · intro st p1 p2 p3 p4 p5 h1 h2 h3 h4 h5
    simp [onTradeResult, h1, h2, h3, h4, h5, maxConsecutiveLosses]
  · intro st sig pf h5
    by_cases hgate : 0 < max st.peak_balance pf.total_balance
        ∧ drawdownThreshold <
          (max st.peak_balance pf.total_balance - pf.total_balance)
            / max st.peak_balance pf.total_balance
    · have hcore : assessSignalCore st sig pf
          = ({ st with peak_balance := max st.peak_balance pf.total_balance },
             AssessOutcome.rejected (ddRejection
               ((max st.peak_balance pf.total_balance - pf.total_balance)
                 / max st.peak_balance pf.total_balance))) := by
        simp only [assessSignalCore, peak_update_eq_max]
        rw [if_pos hgate]
      have hsnd : (assessSignal st sig pf).2
          = Except.ok (ddRejection
              ((max st.peak_balance pf.total_balance - pf.total_balance)
                / max st.peak_balance pf.total_balance)) := by
        simp [assessSignal, hcore]
      exact ⟨_, hsnd, rfl,
        fun hle => absurd hgate.2 (not_lt.mpr hle)⟩
    · have hcore : assessSignalCore st sig pf
          = ({ st with peak_balance := max st.peak_balance pf.total_balance },
             AssessOutcome.rejected clRejection) := by
        simp only [assessSignalCore, peak_update_eq_max]
        rw [if_neg hgate, if_pos h5]
      have hsnd : (assessSignal st sig pf).2 = Except.ok clRejection := by
        simp [assessSignal, hcore]
      exact ⟨_, hsnd, rfl, fun _ => by decide⟩
  · intro st pnl hpnl
    constructor
    · simp [onTradeResult, not_lt.mpr hpnl.le]
    · simp [onTradeResult, not_lt.mpr hpnl.le, maxConsecutiveLosses]

/-- C4 witness for the amended statement: concrete five losses from the fresh
controller, a concrete rejection with the consecutive-loss reason at balance
10000 (no drawdown recorded), and a concrete reset by a winning trade. -/
theorem C4_amended_consecutive_losses_witness :
    maxConsecutiveLosses ≤ rcFiveLosses.consecutive_losses
    ∧ (∃ a, (assessSignal rcFiveLosses sigFix pfFix).2 = Except.ok a
        ∧ a.approved = false
        ∧ ((max rcFiveLosses.peak_balance pfFix.total_balance
              - pfFix.total_balance)
             / max rcFiveLosses.peak_balance pfFix.total_balance
              ≤ drawdownThreshold →
           strContains a.reason clWord = true))
    ∧ (onTradeResult rcFiveLosses 50).consecutive_losses = 0 := by
  refine ⟨?_, ?_, ?_⟩
  · have h := C4_amended_consecutive_losses.1 rcFix (-100) (-100) (-100)
      (-100) (-100) (by norm_num) (by norm_num) (by norm_num) (by norm_num)
      (by norm_num)
    simpa [rcFiveLosses] using h
  · refine C4_amended_consecutive_losses.2.1 rcFiveLosses sigFix pfFix ?_
    norm_num [rcFiveLosses, rcFix, onTradeResult, maxConsecutiveLosses]
  · exact (C4_amended_consecutive_losses.2.2 rcFiveLosses 50 (by norm_num)).1

/-- Controller whose config has adaptive mode disabled. -/
def rcNonAdaptive : RiskControllerState :=
  { config := { adaptive_mode := false } }

/-- C3: update_adaptive_parameters delegates to the Adaptive Risk Engine when
adaptive mode is enabled, writes the four returned bounds into the controller
config (leaving the rest of the state unchanged, so subsequent assess_signal
calls read the fresh bounds from st.config) and returns the new parameters;
with adaptive mode disabled it returns nothing and changes nothing. -/
theorem C3_update_adaptive_parameters :
    (∀ (st : RiskControllerState) (mc : MarketConditions)
        (perf : StrategyPerformance),
      st.config.adaptive_mode = true →
        (updateAdaptiveParameters st mc perf).2
            = some (AdaptiveRiskSettings.calculate_adaptive_parameters mc perf)
        ∧ (updateAdaptiveParameters st mc perf).1
            = { st with config :=
                { st.config with
                  max_leverage := (AdaptiveRiskSettings.calculate_adaptive_parameters mc perf).max_leverage,
                  max_position_size_percent := (AdaptiveRiskSettings.calculate_adaptive_parameters mc perf).max_position_size_percent,
                  stop_loss_percent := (AdaptiveRiskSettings.calculate_adaptive_parameters mc perf).stop_loss_percent,
                  take_profit_percent := (AdaptiveRiskSettings.calculate_adaptive_parameters mc perf).take_profit_percent } })
    ∧ (∀ (st : RiskControllerState) (mc : MarketConditions)
        (perf : StrategyPerformance),
      st.config.adaptive_mode = false →
        updateAdaptiveParameters st mc perf = (st, none)) := by
  constructor
  · intro st mc perf h
    simp [updateAdaptiveParameters, h]
  · intro st mc perf h
    simp [updateAdaptiveParameters, h]

/-- C3 witness: the default config has adaptive mode on, so the update
returns the computed parameters and installs them; with the flag off the call
is a no-op. -/
theorem C3_update_adaptive_parameters_witness :
    (updateAdaptiveParameters rcFix mcRatioBug perfRatioBug).2
        = some (AdaptiveRiskSettings.calculate_adaptive_parameters
            mcRatioBug perfRatioBug)
    ∧ updateAdaptiveParameters rcNonAdaptive mcRatioBug perfRatioBug
        = (rcNonAdaptive, none) :=
  ⟨(C3_update_adaptive_parameters.1 rcFix mcRatioBug perfRatioBug rfl).1,
   C3_update_adaptive_parameters.2 rcNonAdaptive mcRatioBug perfRatioBug rfl⟩

/-- Arithmetic helper: halving an integer leverage of at least one, floored
at one, never increases it. -/
theorem max_one_fdiv_le (l : ℤ) (hl : 1 ≤ l) : max 1 (Int.fdiv l 2) ≤ l := by
  rw [Int.fdiv_eq_ediv l (by norm_num)]
  refine max_le hl ?_
  omega

/-- Arithmetic helper: subtracting a nonnegative count, floored at one, never
increases a leverage of at least one. -/
theorem max_one_sub_le (l c : ℤ) (hl : 1 ≤ l) (hc : 0 ≤ c) :
    max 1 (l - c) ≤ l := max_le hl (by omega)

/-- The leverage adjustment of assess_signal is capped at the configured
maximum and, for an input leverage of at least one, never increases it. -/
theorem adjustedLeverageCalc_le (cfg : RiskConfig) (cl : ℕ) (sig : Signal)
    (pf : PortfolioState) :
    adjustedLeverageCalc cfg cl sig pf ≤ cfg.max_leverage
    ∧ (1 ≤ sig.leverage → adjustedLeverageCalc cfg cl sig pf ≤ sig.leverage) := by
  simp only [adjustedLeverageCalc]
  refine ⟨min_le_right _ _, fun hl => le_trans (min_le_left _ _) ?_⟩
  split
  · split
    · exact le_trans (max_one_sub_le _ _ (le_max_left _ _) (by omega))
        (max_one_fdiv_le _ hl)
    · exact max_one_sub_le _ _ hl (by omega)
  · split
    · exact max_one_fdiv_le _ hl
    · exact le_refl _

/-- On every rejection path of the body of assess_signal the returned
assessment carries approved false. -/
theorem assessSignalCore_rejected_not_approved (st : RiskControllerState)
    (sig : Signal) (pf : PortfolioState) (a : RiskAssessment)
    (h : (assessSignalCore st sig pf).2 = AssessOutcome.rejected a) :
    a.approved = false := by
  simp only [assessSignalCore] at h
  repeat' split at h
  all_goals first
    | (injection h with h2; rw [← h2]; rfl)
    | injection h

/-- On the path of assess_signal that reaches the adjusted-Signal
construction, the computed leverage is capped at the configured maximum and,
for an input leverage of at least one, never exceeds it. -/
theorem assessSignalCore_approved_leverage (st : RiskControllerState)
    (sig : Signal) (pf : PortfolioState) (r : ℚ) (w : List String) (lev : ℤ)
    (sl : Option ℚ)
    (h : (assessSignalCore st sig pf).2 = AssessOutcome.approvedPath r w lev sl) :
    lev ≤ st.config.max_leverage ∧ (1 ≤ sig.leverage → lev ≤ sig.leverage) := by
  have hb := adjustedLeverageCalc_le st.config st.consecutive_losses sig pf
  simp only [assessSignalCore] at h
  repeat' split at h
  all_goals first
    | (injection h with hr hw hlev hsl; subst hlev; exact hb)
    | injection h

/-- An approved result of the spec-intended assess_signal comes from the
construction path: its adjusted signal is the adjusted copy of the input
signal for the leverage and stop loss computed by the body. -/
theorem assessSignalSpec_ok_approved (st : RiskControllerState) (sig : Signal)
    (pf : PortfolioState) (a : RiskAssessment)
    (h : (assessSignalSpec st sig pf).2 = Except.ok a)
    (ha : a.approved = true) :
    ∃ r w lev sl,
      (assessSignalCore st sig pf).2 = AssessOutcome.approvedPath r w lev sl
      ∧ a.adjusted_signal = some (adjustedCopy sig lev sl) := by
  rcases hc : assessSignalCore st sig pf with ⟨st1, out⟩
  cases out with
  | rejected a2 =>
    have hf : a2.approved = false :=
      assessSignalCore_rejected_not_approved st sig pf a2 (by rw [hc])
    simp only [assessSignalSpec, hc] at h
    injection h with h2
    rw [← h2] at ha
    rw [hf] at ha
    exact absurd ha (by norm_num)
  | raisedZeroDiv =>
    simp only [assessSignalSpec, hc] at h
    exact absurd h (by simp)
  | approvedPath r w lev sl =>
    refine ⟨r, w, lev, sl, rfl, ?_⟩
    simp only [assessSignalSpec, hc] at h
    injection h with h2
    rw [← h2]

/-- C9: every approved assessment of the spec-intended assess_signal carries
an adjusted leverage at most the configured maximum, and open_position hands
its order exactly min(signal leverage, configured maximum), which is at most
the configured maximum. -/
theorem C9_order_leverage_capped :
    (∀ (st : RiskControllerState) (sig : Signal) (pf : PortfolioState)
        (a : RiskAssessment) (adj : Signal),
      (assessSignalSpec st sig pf).2 = Except.ok a → a.approved = true →
      a.adjusted_signal = some adj → adj.leverage ≤ st.config.max_leverage)
    ∧ (∀ (sig : Signal) (cfg : RiskConfig),
        openPositionEffectiveLeverage sig cfg
            = min sig.leverage cfg.max_leverage
        ∧ openPositionEffectiveLeverage sig cfg ≤ cfg.max_leverage) := by
  constructor
  · intro st sig pf a adj h ha hadj
    obtain ⟨r, w, lev, sl, hcore, hsig⟩ :=
      assessSignalSpec_ok_approved st sig pf a h ha
    have hl := (assessSignalCore_approved_leverage st sig pf r w lev sl hcore).1
    rw [hadj] at hsig
    have he : adj = adjustedCopy sig lev sl := by simpa using hsig
    rw [he]
    exact hl
  · intro sig cfg
    exact ⟨rfl, min_le_right _ _⟩

/-- Approved assessment returned by the spec-intended assess_signal on the
test fixtures (no gate trips, no adjustment needed, so the adjusted copy
coincides with the input signal). -/
def aApproved : RiskAssessment :=
  { approved := true, adjusted_signal := some sigFix, risk_score := 0,
    warnings := [], reason := "Signal approved" }

/-- Concrete evaluation of the spec-intended assess_signal on the approval
fixtures. -/
theorem assessSignalSpec_fix_eval :
    (assessSignalSpec rcFix sigFix pfFix).2 = Except.ok aApproved := by
  have h : (assessSignalCore rcFix sigFix pfFix)
      = ({ rcFix with peak_balance := 10000 },
         AssessOutcome.approvedPath 0 [] 5 (some 49000)) := by
    norm_num [assessSignalCore, pathRisk, pathWarnings, adjustedLeverageCalc,
      adjustedStopCalc, rcFix, sigFix, pfFix, drawdownThreshold,
      maxConsecutiveLosses]
  rw [assessSignalSpec, h]
  norm_num [aApproved, adjustedCopy, sigFix]

/-- C9 witness: on the approval fixtures the adjusted leverage 5 is at most
the configured maximum 10, and the order leverage of open_position is capped
likewise. -/
theorem C9_order_leverage_capped_witness :
    sigFix.leverage ≤ rcFix.config.max_leverage
    ∧ openPositionEffectiveLeverage sigFix rcFix.config
        ≤ rcFix.config.max_leverage :=
  ⟨C9_order_leverage_capped.1 rcFix sigFix pfFix aApproved sigFix
      assessSignalSpec_fix_eval rfl rfl,
   (C9_order_leverage_capped.2 sigFix rcFix.config).2⟩

/-- C10: an approved assessment of the spec-intended assess_signal returns an
adjusted copy agreeing with the input signal on signal_type, symbol,
confidence, price, take_profit and reason (only stop_loss and leverage may
differ), and for a data-model-conformant input leverage (at least 1) within
the configured maximum the leverage never increases. -/
theorem C10_adjusted_signal_frame (st : RiskControllerState) (sig : Signal)
    (pf : PortfolioState) (a : RiskAssessment) (adj : Signal)
    (h : (assessSignalSpec st sig pf).2 = Except.ok a)
    (ha : a.approved = true) (hadj : a.adjusted_signal = some adj) :
    adj.signal_type = sig.signal_type ∧ adj.symbol = sig.symbol
    ∧ adj.confidence = sig.confidence ∧ adj.price = sig.price
    ∧ adj.take_profit = sig.take_profit ∧ adj.reason = sig.reason
    ∧ (1 ≤ sig.leverage → sig.leverage ≤ st.config.max_leverage →
        adj.leverage ≤ sig.leverage) := by
  obtain ⟨r, w, lev, sl, hcore, hsig⟩ :=
    assessSignalSpec_ok_approved st sig pf a h ha
  rw [hadj] at hsig
  have he : adj = adjustedCopy sig lev sl := by simpa using hsig
  have hl := (assessSignalCore_approved_leverage st sig pf r w lev sl hcore).2
  rw [he]
  exact ⟨rfl, rfl, rfl, rfl, rfl, rfl, fun h1 _ => hl h1⟩

/-- C10 witness: on the approval fixtures the adjusted copy agrees with the
input signal on the six frame fields and its leverage 5 does not exceed the
input leverage 5. -/
theorem C10_adjusted_signal_frame_witness :
    sigFix.signal_type = sigFix.signal_type
    ∧ sigFix.symbol = sigFix.symbol
    ∧ sigFix.confidence = sigFix.confidence
    ∧ sigFix.price = sigFix.price
    ∧ sigFix.take_profit = sigFix.take_profit
    ∧ sigFix.reason = sigFix.reason
    ∧ (1 ≤ sigFix.leverage → sigFix.leverage ≤ rcFix.config.max_leverage →
        sigFix.leverage ≤ sigFix.leverage) :=
  C10_adjusted_signal_frame rcFix sigFix pfFix aApproved sigFix
    assessSignalSpec_fix_eval rfl rfl

/-- C7: auto_adjust_strategies leaves a strategy with fewer than 20 recorded
outcomes untouched; with at least 20 outcomes it disables the strategy when
the most recent 20 sum below -10 with win rate below 0.3, and enables a
currently disabled strategy when they sum above 5 with win rate above 0.5. -/
theorem C7_auto_adjust (l : List ManagedStrategy) (i : ℕ) (h : i < l.length)
    (h2 : i < (autoAdjustStrategies l).length) :
    ((l.get ⟨i, h⟩).history.length < 20 →
        (autoAdjustStrategies l).get ⟨i, h2⟩ = l.get ⟨i, h⟩)
    ∧ (20 ≤ (l.get ⟨i, h⟩).history.length →
        (lastTwenty (l.get ⟨i, h⟩).history).sum < -10 →
        (((lastTwenty (l.get ⟨i, h⟩).history).filter
            (fun p => p > 0)).length : ℚ) / 20 < 0.3 →
        ((autoAdjustStrategies l).get ⟨i, h2⟩).enabled = false)
    ∧ (20 ≤ (l.get ⟨i, h⟩).history.length →
        5 < (lastTwenty (l.get ⟨i, h⟩).history).sum →
        0.5 < (((lastTwenty (l.get ⟨i, h⟩).history).filter
            (fun p => p > 0)).length : ℚ) / 20 →
        (l.get ⟨i, h⟩).enabled = false →
        ((autoAdjustStrategies l).get ⟨i, h2⟩).enabled = true) := by
  have hg : (autoAdjustStrategies l).get ⟨i, h2⟩
      = autoAdjustOne (l.get ⟨i, h⟩) := by
    simp [autoAdjustStrategies]
  rw [hg]
  refine ⟨?_, ?_, ?_⟩
  · intro hlen
    simp only [autoAdjustOne]
    rw [if_pos hlen]
  · intro hlen hsum hwr
    simp only [autoAdjustOne]
    rw [if_neg (by omega), if_pos ⟨hsum, hwr⟩]
  · intro hlen hsum hwr hdis
    simp only [autoAdjustOne]
    rw [if_neg (by omega),
      if_neg (by rintro ⟨hc, -⟩; linarith),
      if_pos ⟨hsum, hwr, hdis⟩]

/-- Strategy with 20 recorded outcomes summing to -15 with 4 wins. -/
def stratLosing : ManagedStrategy :=
  { name := "TrendFollowing", enabled := true,
    history := [1, 1, 1, 1, -4, -1, -1, -1, -1, -1,
                -1, -1, -1, -1, -1, -1, -1, -1, -1, -1] }

/-- Disabled strategy with 20 recorded outcomes summing to 16 with 12 wins. -/
def stratRecovered : ManagedStrategy :=
  { name := "Scalping", enabled := false,
    history := [2, 2, 2, 2, 2, 2, 2, 2, 2, 2,
                2, 2, -1, -1, -1, -1, -1, -1, -1, -1] }

/-- C7 witness: the losing strategy gets disabled and the recovered disabled
strategy gets re-enabled by one auto_adjust_strategies pass. -/
theorem C7_auto_adjust_witness :
    ((autoAdjustStrategies [stratLosing, stratRecovered]).get
        ⟨0, by norm_num [autoAdjustStrategies]⟩).enabled = false
    ∧ ((autoAdjustStrategies [stratLosing, stratRecovered]).get
        ⟨1, by norm_num [autoAdjustStrategies]⟩).enabled = true := by
  constructor
  · refine (C7_auto_adjust [stratLosing, stratRecovered] 0 (by norm_num)
      (by norm_num [autoAdjustStrategies])).2.1 ?_ ?_ ?_
    · norm_num [stratLosing]
    · norm_num [stratLosing, lastTwenty]
    · norm_num [stratLosing, lastTwenty]
  · refine (C7_auto_adjust [stratLosing, stratRecovered] 1 (by norm_num)
      (by norm_num [autoAdjustStrategies])).2.2 ?_ ?_ ?_ ?_
    · norm_num [stratRecovered]
    · norm_num [stratRecovered, lastTwenty]
    · norm_num [stratRecovered, lastTwenty]
    · norm_num [stratRecovered]

/-- Loop of select_best_pairs as a fold: the scored survivors are the fetched
pairs passing both filters, scored in order, and all_pairs_with_data pairs
every fetched MarketData with its score, in order. -/
theorem selectBestPairs_foldl (cfg : TradingConfig)
    (fetched : List (Option MarketData)) :
    ∀ (s0 : List PairScore) (a0 : List (MarketData × PairScore)),
      fetched.foldl (selectBestPairsStep cfg) (s0, a0)
        = (s0 ++ ((fetched.filterMap id).filter (survivesFilters cfg)).map
              (calculate_pair_score cfg),
           a0 ++ (fetched.filterMap id).map
              (fun md => (md, calculate_pair_score cfg md))) := by
  induction fetched with
  | nil => intro s0 a0; simp
  | cons omd rest ih =>
    intro s0 a0
    cases omd with
    | none => simp [selectBestPairsStep, ih]
    | some md =>
      by_cases hv : md.volume_24h < cfg.min_volume_usd
      · simp [selectBestPairsStep, survivesFilters, hv, ih]
      · by_cases hvol : md.volatility < cfg.min_volatility
            ∨ md.volatility > cfg.max_volatility
        · rcases hvol with hvol | hvol <;>
            simp [selectBestPairsStep, survivesFilters, hv, hvol, ih]
        · push_neg at hvol
          simp [selectBestPairsStep, survivesFilters, hv, ih,
            not_lt.mpr hvol.1, not_lt.mpr hvol.2]

/-- C8: select_best_pairs returns the filter survivors sorted by total score
descending, truncated to max_pairs; when no pair survives but at least one
fetched pair yielded market data it instead returns the scores of the top
max_pairs fetched pairs sorted by raw 24h volume descending; with no data at
all it returns the empty list. -/
theorem C8_select_best_pairs (cfg : TradingConfig)
    (fetched : List (Option MarketData)) (max_pairs : ℕ) :
    (((fetched.filterMap id).filter (survivesFilters cfg)) ≠ [] →
      select_best_pairs cfg fetched max_pairs
        = (sortDesc (fun p => p.total_score)
            (((fetched.filterMap id).filter (survivesFilters cfg)).map
              (calculate_pair_score cfg))).take max_pairs)
    ∧ (((fetched.filterMap id).filter (survivesFilters cfg)) = [] →
       fetched.filterMap id ≠ [] →
      select_best_pairs cfg fetched max_pairs
        = ((sortDesc (fun x => x.1.volume_24h)
            ((fetched.filterMap id).map
              (fun md => (md, calculate_pair_score cfg md)))).take
                  max_pairs).map (fun x => x.2))
    ∧ (fetched.filterMap id = [] →
      select_best_pairs cfg fetched max_pairs = []) := by
  have hf := selectBestPairs_foldl cfg fetched [] []
  simp only [List.nil_append] at hf
  refine ⟨?_, ?_, ?_⟩
  · intro hs
    rw [select_best_pairs, hf]
    have he : (((fetched.filterMap id).filter (survivesFilters cfg)).map
        (calculate_pair_score cfg)).isEmpty = false := by
      simp [List.isEmpty_iff, hs]
    simp [he]
  · intro hs hy
    rw [select_best_pairs, hf, hs]
    have he : ((fetched.filterMap id).map
        (fun md => (md, calculate_pair_score cfg md))).isEmpty = false := by
      simp [List.isEmpty_iff, hy]
    simp [he]
  · intro hy
    rw [select_best_pairs, hf, hy]
    simp [sortDesc]

/-- Default TradingConfig of config.py (volume threshold 1000000, volatility
range 0.02 to 0.15). -/
def cfgTrading : TradingConfig := {}

/-- Fetched pair with 24h volume 500000 (fails the volume filter) and
volatility 0.1 (inside the volatility range). -/
def mdLowVolumeA : MarketData :=
  { symbol := "AAAUSDTM", price := 100, volume_24h := 500000,
    high_24h := 105, low_24h := 95, volatility := 0.1, timestamp := 0 }

/-- Fetched pair with 24h volume 200000 (fails the volume filter) and
volatility 0.08 (inside the volatility range). -/
def mdLowVolumeB : MarketData :=
  { symbol := "BBBUSDTM", price := 50, volume_24h := 200000,
    high_24h := 52, low_24h := 48, volatility := 0.08, timestamp := 0 }

/-- C8 witness: with two pairs both failing the 1000000 volume threshold (at
500000 and 200000) but valid volatility, select_best_pairs returns both,
higher raw volume first, rather than an empty list. -/
theorem C8_select_best_pairs_witness :
    select_best_pairs cfgTrading [some mdLowVolumeA, some mdLowVolumeB] 5
      = [calculate_pair_score cfgTrading mdLowVolumeA,
         calculate_pair_score cfgTrading mdLowVolumeB] := by
  have h1 : survivesFilters cfgTrading mdLowVolumeA = false := by
    norm_num [survivesFilters, cfgTrading, mdLowVolumeA]
  have h2 : survivesFilters cfgTrading mdLowVolumeB = false := by
    norm_num [survivesFilters, cfgTrading, mdLowVolumeB]
  have hs : (([some mdLowVolumeA, some mdLowVolumeB].filterMap id).filter
      (survivesFilters cfgTrading)) = [] := by
    simp [h1, h2]
  have h := (C8_select_best_pairs cfgTrading
    [some mdLowVolumeA, some mdLowVolumeB] 5).2.1 hs (by simp)
  rw [h]
  norm_num [sortDesc, insertDesc, mdLowVolumeA, mdLowVolumeB]

/-- The signal list of get_signals is, for every incoming _last_signals
state, the list of non-HOLD signals produced by enabled strategies in
registration order. -/
theorem getSignals_fst (strats : List Strat) (sym : String) :
    ∀ (last : List (String × Signal)),
      (getSignals strats sym last).1
        = (producedSignals strats).map (fun p => p.2) := by
  induction strats with
  | nil => intro last; rfl
  | cons st rest ih =>
    intro last
    simp only [getSignals, producedSignals, List.filterMap_cons]
    cases hif : (if st.enabled then st.analyzeResult else none) with
    | none => simpa [producedSignals] using ih last
    | some s =>
      by_cases hh : s.signal_type ≠ SignalType.hold
      · simpa [hh, producedSignals] using
          ih ((st.name ++ "_" ++ sym, s) :: last)
      · simpa [hh, producedSignals] using ih last

/-- pickFirstMax only returns elements of its input list. -/
theorem pickFirstMax_mem :
    ∀ (l : List (ℚ × Signal)) (x : ℚ × Signal),
      pickFirstMax l = some x → x ∈ l := by
  intro l
  induction l with
  | nil => intro x h; exact absurd h (by simp [pickFirstMax])
  | cons a as ih =>
    intro x h
    simp only [pickFirstMax] at h
    split at h
    · injection h with h3
      exact h3 ▸ List.mem_cons_self a as
    · next y heq =>
      split at h
      · injection h with h3
        exact h3 ▸ List.mem_cons_of_mem a (ih y heq)
      · injection h with h3
        exact h3 ▸ List.mem_cons_self a as

/-- Every produced pair carries a non-HOLD signal. -/
theorem producedSignals_not_hold :
    ∀ (strats : List Strat) (p : Strat × Signal),
      p ∈ producedSignals strats → p.2.signal_type ≠ SignalType.hold := by
  intro strats
  induction strats with
  | nil => intro p hp; simp [producedSignals] at hp
  | cons st rest ih =>
    intro p hp
    simp only [producedSignals, List.filterMap_cons] at hp
    cases hif : (if st.enabled then st.analyzeResult else none) with
    | none =>
      simp only [hif] at hp
      exact ih p hp
    | some s =>
      simp only [hif] at hp
      by_cases hh : s.signal_type ≠ SignalType.hold
      · rw [if_pos hh] at hp
        rcases List.mem_cons.mp hp with h3 | h3
        · rw [h3]; exact hh
        · exact ih p h3
      · rw [if_neg hh] at hp
        exact ih p hp

/-- When every produced signal is attributed to its producer, the scoring
loop computes confidence times the producing strategy performance score. -/
theorem scoredSignals_of_attrib (strats : List Strat)
    (last1 : List (String × Signal)) (sym : String) :
    ∀ (produced : List (Strat × Signal)),
      (∀ p ∈ produced, firstMatch strats last1 sym p.2 = some p.1) →
      scoredSignals strats last1 sym (produced.map (fun p => p.2))
        = produced.map (fun p => (p.2.confidence * p.1.perfScore, p.2)) := by
  intro produced
  induction produced with
  | nil => intro H; rfl
  | cons p rest ih =>
    intro H
    have hp := H p (List.mem_cons_self _ _)
    have ht := ih (fun q hq => H q (List.mem_cons_of_mem _ hq))
    simp [scoredSignals, List.filterMap_cons, hp] at ht ⊢
    exact ht

/-- C6 amended: get_best_signal never returns a HOLD signal and returns none
when no enabled strategy produces a non-HOLD signal; and whenever the
reason-substring/last-signal attribution loop assigns every produced signal
its producing strategy, the returned signal is exactly the first maximizer of
confidence times the ORIGINATING strategy performance score (the claim as
stated).  The counterexample shows the attribution hypothesis is necessary:
a reason containing an earlier strategy name diverts the score. -/
theorem C6_amended_get_best_signal :
    (∀ (strats : List Strat) (sym : String) (last : List (String × Signal))
        (s : Signal),
      (getBestSignal strats sym last).1 = some s →
      s.signal_type ≠ SignalType.hold)
    ∧ (∀ (strats : List Strat) (sym : String) (last : List (String × Signal)),
        (∀ p ∈ producedSignals strats,
          firstMatch strats (getSignals strats sym last).2 sym p.2
            = some p.1) →
        (getBestSignal strats sym last).1 = claimedBestSignal strats)
    ∧ (∀ (strats : List Strat) (sym : String) (last : List (String × Signal)),
        producedSignals strats = [] →
        (getBestSignal strats sym last).1 = none) := by
  refine ⟨?_, ?_, ?_⟩
  · intro strats sym last s h
    simp only [getBestSignal] at h
    by_cases he : (getSignals strats sym last).1.isEmpty
    · rw [if_pos he] at h
      exact absurd h (by simp)
    · rw [if_neg he] at h
      cases hp : pickFirstMax (scoredSignals strats
          (getSignals strats sym last).2 sym (getSignals strats sym last).1) with
      | none => rw [hp] at h; exact absurd h (by simp)
      | some best =>
        rw [hp] at h
        injection h with h3
        have hmem := pickFirstMax_mem _ best hp
        simp only [scoredSignals] at hmem
        rcases List.mem_filterMap.mp hmem with ⟨s0, hs0, hmap⟩
        rcases Option.map_eq_some'.mp hmap with ⟨st0, -, hb⟩
        have hs0m : s0 ∈ (producedSignals strats).map (fun p => p.2) := by
          rw [← getSignals_fst strats sym last]; exact hs0
        rcases List.mem_map.mp hs0m with ⟨p, hpm, hps⟩
        have := producedSignals_not_hold strats p hpm
        rw [← h3, ← hb]
        simpa [hps] using this
  · intro strats sym last H
    simp only [getBestSignal]
    have h1 := getSignals_fst strats sym last
    cases hprod : producedSignals strats with
    | nil =>
      have : (getSignals strats sym last).1 = [] := by rw [h1, hprod]; rfl
      rw [this]
      simp [claimedBestSignal, hprod, pickFirstMax]
    | cons p rest =>
      have hne : (getSignals strats sym last).1.isEmpty = false := by
        rw [h1, hprod]; rfl
      rw [if_neg (by simp [hne])]
      have hs : scoredSignals strats (getSignals strats sym last).2 sym
          (getSignals strats sym last).1
          = (producedSignals strats).map
              (fun q => (q.2.confidence * q.1.perfScore, q.2)) := by
        rw [h1]
        exact scoredSignals_of_attrib strats _ sym (producedSignals strats) H
      rw [hs]
      simp only [claimedBestSignal]
      cases hp : pickFirstMax ((producedSignals strats).map
          (fun q => (q.2.confidence * q.1.perfScore, q.2))) with
      | none => simp
      | some best => simp
  · intro strats sym last hprod
    simp only [getBestSignal]
    have : (getSignals strats sym last).1 = [] := by
      rw [getSignals_fst strats sym last, hprod]; rfl
    rw [this]
    rfl

/-- C6 counterexample: with the fresh arbitrator state, strategy beta (score
0.1) produces a 0.9-confidence signal whose reason mentions the name of the
first-registered strategy alpha (score 1.0, no signal), and strategy gamma
(score 0.5) produces a 0.8-confidence signal.  The attribution loop matches
the beta signal to alpha by reason substring, scoring it 0.9 instead of 0.09,
so get_best_signal returns the beta signal although the claim (confidence
times the originating strategy performance score) selects the gamma signal
(0.4 against 0.09). -/
theorem C6_attribution_counterexample :
    (getBestSignal [stratAlpha, stratBeta, stratGamma] "XUSDTM" []).1
        = some sigFromBeta
    ∧ claimedBestSignal [stratAlpha, stratBeta, stratGamma]
        = some sigFromGamma
    ∧ sigFromBeta ≠ sigFromGamma := by
  refine ⟨?_, ?_, by decide⟩
  · have hgs : getSignals [stratAlpha, stratBeta, stratGamma] "XUSDTM" []
        = ([sigFromBeta, sigFromGamma],
           [("gamma" ++ "_" ++ "XUSDTM", sigFromGamma),
            ("beta" ++ "_" ++ "XUSDTM", sigFromBeta)]) := rfl
    have hm1 : firstMatch [stratAlpha, stratBeta, stratGamma]
        [("gamma" ++ "_" ++ "XUSDTM", sigFromGamma),
         ("beta" ++ "_" ++ "XUSDTM", sigFromBeta)] "XUSDTM" sigFromBeta
        = some stratAlpha := rfl
    have hm2 : firstMatch [stratAlpha, stratBeta, stratGamma]
        [("gamma" ++ "_" ++ "XUSDTM", sigFromGamma),
         ("beta" ++ "_" ++ "XUSDTM", sigFromBeta)] "XUSDTM" sigFromGamma
        = some stratGamma := rfl
    simp only [getBestSignal, hgs]
    norm_num [scoredSignals, List.filterMap_cons, hm1, hm2, pickFirstMax,
      sigFromBeta, sigFromGamma, stratAlpha, stratGamma]
  · norm_num [claimedBestSignal, producedSignals, List.filterMap_cons,
      pickFirstMax, sigFromBeta, sigFromGamma, stratAlpha, stratBeta,
      stratGamma]

/-- C6 witness for the amended statement: a single strategy stamping its name
into its reason satisfies the attribution hypothesis, the returned signal is
not HOLD, and it equals the claim-side best signal. -/
theorem C6_amended_get_best_signal_witness :
    sigSolo.signal_type ≠ SignalType.hold
    ∧ (getBestSignal [stratSolo] "XUSDTM" []).1
        = claimedBestSignal [stratSolo] := by
  constructor
  · exact C6_amended_get_best_signal.1 [stratSolo] "XUSDTM" [] sigSolo rfl
  · refine C6_amended_get_best_signal.2.1 [stratSolo] "XUSDTM" [] ?_
    intro p hp
    have hp2 : p = (stratSolo, sigSolo) := by
      simpa [producedSignals, stratSolo, sigSolo] using hp
    rw [hp2]
    rfl

end TradingPlot
